import Mathlib

/-!
# Verification of `sab_watchdog.py`

A shallow embedding of the SABnzbd watchdog script.  Sizes, speeds and disk
quantities are modelled as exact rationals (`ℚ`); strings are modelled as
`List Char` where character-level reasoning is needed.  The effectful API
calls (`resume`, `delete`, the post-deletion re-fetch) are modelled by an
environment record carrying their results for one loop cycle, and the main
`while True:` loop body becomes a pure step function
`(config, env, snapshot, state) → (state, actions)`.
-/

namespace SabWatchdog

/-! ## Python string helpers

`stripChars` models Python's `str.strip()` (default whitespace),
`listReplace` models `str.replace` (all non-overlapping occurrences, left to
right), and `pyFloatParse`/`repValue`/`pyFloatChars` model the `float()`
builtin on the decimal fragment it accepts (sign, digits, decimal point,
exponent; the `inf`/`nan`/underscore forms are out of scope and rejected).
The parse is split into a purely syntactic stage returning the digit groups
(`FloatRep`) and a numeric stage turning them into a rational, so that the
syntactic stage stays kernel-computable.
-/

/-- Characters stripped by Python's default `str.strip()`. -/
def isSpaceChar (c : Char) : Bool :=
  c == ' ' || c == '\t' || c == '\n' || c == '\r' || c == Char.ofNat 11 || c == Char.ofNat 12

/-- Python `str.strip()`: drop leading and trailing whitespace. -/
def stripChars (l : List Char) : List Char :=
  ((l.dropWhile isSpaceChar).reverse.dropWhile isSpaceChar).reverse

/-- Recursion core of `listReplace`, structural on a fuel argument so that
it reduces in the kernel; one unit of fuel is spent per character examined,
so `fuel = l.length` always suffices. -/
def listReplaceAux (pat rep : List Char) : ℕ → List Char → List Char
  | _, [] => []
  | 0, l => l
  | fuel + 1, c :: rest =>
    if pat ≠ [] ∧ pat.isPrefixOf (c :: rest) then
      rep ++ listReplaceAux pat rep fuel ((c :: rest).drop pat.length)
    else
      c :: listReplaceAux pat rep fuel rest

/-- Python `str.replace(pat, rep)`: replace every non-overlapping occurrence
of `pat`, scanning left to right. -/
def listReplace (pat rep l : List Char) : List Char :=
  listReplaceAux pat rep l.length l

/-- Value of a digit string, most significant first. -/
def digitsVal (ds : List Char) : ℕ :=
  ds.foldl (fun a c => 10 * a + (c.toNat - 48)) 0

/-- Split an optional leading sign; returns `(isNegative, rest)`. -/
def pySignSplit : List Char → Bool × List Char
  | '+' :: t => (false, t)
  | '-' :: t => (true, t)
  | l => (false, l)

/-- The syntactic decomposition of a string accepted by Python `float`:
mantissa sign, integer digits, fraction digits, exponent sign, exponent
digits (empty when no exponent part is present, which means `× 10^0`). -/
structure FloatRep where
  negMantissa : Bool
  intPart : List Char
  fracPart : List Char
  negExponent : Bool
  expDigits : List Char
deriving DecidableEq, Repr

/-- Parse the exponent tail of a Python float literal (after the mantissa):
empty input means no exponent, otherwise `e`/`E`, optional sign, digits,
and nothing may remain. -/
def pyExpParse (neg : Bool) (ip fp : List Char) : List Char → Option FloatRep
  | [] => some ⟨neg, ip, fp, false, []⟩
  | c :: r =>
    if c == 'e' || c == 'E' then
      let sr := pySignSplit r
      let ds := sr.2.takeWhile Char.isDigit
      let r3 := sr.2.dropWhile Char.isDigit
      if ds.isEmpty || !r3.isEmpty then none
      else some ⟨neg, ip, fp, sr.1, ds⟩
    else none

/-- Syntactic stage of Python `float(s)`: strip, optional sign, digits with
an optional decimal point (at least one digit on some side), optional
exponent; the whole input must be consumed.  `none` models `ValueError`. -/
def pyFloatParse (l0 : List Char) : Option FloatRep :=
  let l := stripChars l0
  let sr := pySignSplit l
  let ip := sr.2.takeWhile Char.isDigit
  let r1 := sr.2.dropWhile Char.isDigit
  match r1 with
  | '.' :: r2 =>
    let fp := r2.takeWhile Char.isDigit
    let r3 := r2.dropWhile Char.isDigit
    if ip.isEmpty && fp.isEmpty then none
    else pyExpParse sr.1 ip fp r3
  | _ => if ip.isEmpty then none else pyExpParse sr.1 ip [] r1

/-- Numeric stage of Python `float`: the rational value of a decomposition. -/
def repValue (r : FloatRep) : ℚ :=
  let m : ℚ := (digitsVal r.intPart : ℚ) + (digitsVal r.fracPart : ℚ) / (10 : ℚ) ^ r.fracPart.length
  let e : ℤ := if r.negExponent then -(digitsVal r.expDigits : ℤ) else (digitsVal r.expDigits : ℤ)
  (if r.negMantissa then -m else m) * (10 : ℚ) ^ e

/-- Python `float(s)` on a character list, as an exact rational.  `none`
models `ValueError`. -/
def pyFloatChars (l : List Char) : Option ℚ :=
  (pyFloatParse l).map repValue

/-- Python `int(s)` on a character list: strip, optional sign, digits only. -/
def pyIntChars (l0 : List Char) : Option ℤ :=
  let l := stripChars l0
  let sr := pySignSplit l
  let ds := sr.2.takeWhile Char.isDigit
  let r := sr.2.dropWhile Char.isDigit
  if ds.isEmpty || !r.isEmpty then none
  else some (if sr.1 then -(digitsVal ds : ℤ) else (digitsVal ds : ℤ))

/-! ## `parse_sab_size_string` (source lines 57–69) -/

/-- The characters of the suffix `" GB"`. -/
def gbSuffix : List Char := [' ', 'G', 'B']

/-- The characters of the suffix `" MB"`. -/
def mbSuffix : List Char := [' ', 'M', 'B']

/-- The characters of the suffix `" KB"`. -/
def kbSuffix : List Char := [' ', 'K', 'B']

/-- The unit recognised on a size string by `parse_sab_size_string`. -/
inductive SizeUnit where
  | gb
  | mb
  | kb
  | bare
deriving DecidableEq, Repr

/-- Syntactic stage of `parse_sab_size_string`: strip, test the unit suffix
(`" GB"` first, then `" MB"`, then `" KB"`), and remove every occurrence of
the matched suffix (Python `str.replace`). -/
def sizeSplit (l0 : List Char) : SizeUnit × List Char :=
  let l := stripChars l0
  if gbSuffix.isSuffixOf l then (SizeUnit.gb, listReplace gbSuffix [] l)
  else if mbSuffix.isSuffixOf l then (SizeUnit.mb, listReplace mbSuffix [] l)
  else if kbSuffix.isSuffixOf l then (SizeUnit.kb, listReplace kbSuffix [] l)
  else (SizeUnit.bare, l)

/-- Numeric stage of `parse_sab_size_string`: parse the remaining magnitude
as a Python float and normalise to GB (`MB` divides by 1024, `KB` by
1024·1024, a bare number is already GB); a `ValueError` yields `0.0`. -/
def parseSizeChars (l0 : List Char) : ℚ :=
  match sizeSplit l0 with
  | (SizeUnit.gb, rest) => (pyFloatChars rest).getD 0
  | (SizeUnit.mb, rest) => ((pyFloatChars rest).map (fun q => q / 1024)).getD 0
  | (SizeUnit.kb, rest) => ((pyFloatChars rest).map (fun q => q / (1024 * 1024))).getD 0
  | (SizeUnit.bare, rest) => (pyFloatChars rest).getD 0

/-- `parse_sab_size_string` from the source, on Lean strings. -/
def parse_sab_size_string (s : String) : ℚ :=
  parseSizeChars s.data

/-! ## Data model

A queue slot is a JSON dictionary in the source; the fields the script
reads are modelled as optional strings (`none` models an absent key, so
`job.get(k)` is the field itself and `job.get(k, d)` is `(field).getD d`).
-/

/-- One entry of `queue["slots"]`, with the keys the script reads. -/
structure RawJob where
  nzo_id : Option String
  filename : Option String
  status : Option String
  sizeleft : Option String
  size : Option String
deriving DecidableEq, Repr

/-- `POST_PROCESSING_STATES` (source lines 41–50). -/
def POST_PROCESSING_STATES : List String :=
  ["Verifying", "Verifying:",
   "Extracting", "Extracting:",
   "Moving", "Moving:",
   "Renaming", "Renaming:",
   "Repairing", "Repairing:",
   "Grabbing", "Grabbing:",
   "Copying", "Copying:",
   "Direct Unpack", "Direct Unpack:"]

/-- Python `job.get("status") in states` (a `None` status is in no list). -/
def jobStatusIn (j : RawJob) (states : List String) : Bool :=
  match j.status with
  | some st => states.contains st
  | none => false

/-- The tuple returned by `get_queue_info` (source line 97). -/
structure Snapshot where
  speed : ℚ
  active_download_slots : ℤ
  overall_status : String
  is_post_processing_active : Bool
  disk_space_free_gb : ℚ
  queue_items : List RawJob
deriving DecidableEq, Repr

/-- The sentinel returned by `get_queue_info` on a transport or parse
failure (source lines 100 and 103). -/
def errorSnapshot : Snapshot :=
  ⟨-1, 0, "Error", false, 0, []⟩

/-- The five module-level counters (source lines 34–38).  The source only
ever adds one or assigns zero, so they are naturals. -/
structure WatchdogState where
  zero_speed_hang_counter : ℕ
  sabnzbd_paused_counter : ℕ
  post_processing_active_counter : ℕ
  disk_full_counter : ℕ
  disk_full_restart_counter : ℕ
deriving DecidableEq, Repr

/-- The initial all-zero counter state. -/
def initState : WatchdogState :=
  ⟨0, 0, 0, 0, 0⟩

/-- The environment-variable configuration (source lines 12–26). -/
structure Config where
  MAX_ZERO_COUNT : ℕ
  MAX_PAUSED_COUNT_FOR_UNPAUSE : ℕ
  DISK_FREE_THRESHOLD_GB : ℚ
  MAX_DISK_FULL_COUNT : ℕ
  SIZE_CHECK_BUFFER_GB : ℚ
  RESTART_ON_DISK_FULL_FAIL_COUNT : ℕ

/-- The default configuration values. -/
def defaultConfig : Config :=
  ⟨3, 5, 5, 2, 1, 1⟩

/-- The results of the effectful API calls a single cycle may make:
the outcome of `resume_sabnzbd()`, the outcome of `delete_sabnzbd_job(...)`,
and the snapshot returned by the post-deletion `get_queue_info()` re-fetch
(source line 225; only its disk field is read). -/
structure Env where
  resumeOk : Bool
  deleteOk : Bool
  refetch : Snapshot

/-- The remediation actions a cycle can emit, in the order the source
issues them: a resume call, a delete call for a specific job, the queue
reset call, and `docker restart`. -/
inductive Action where
  | Resume
  | DeleteJob (job : RawJob)
  | ResetQueue
  | RestartContainer
deriving DecidableEq, Repr

/-! ## The loop body (source lines 159–277) -/

/-- A job survives the `continue` filter of the deletion loop (source
line 195): its status is not `Completed`/`Failed` and not a
post-processing state. -/
def eligibleJob (j : RawJob) : Bool :=
  !(jobStatusIn j ["Completed", "Failed"] || jobStatusIn j POST_PROCESSING_STATES)

/-- The size the deletion loop compares for a job (source lines 198–201):
`sizeleft` when the job is `Downloading`, `size` otherwise, with the
`"0 GB"` defaults of `job.get`. -/
def effectiveSize (j : RawJob) : ℚ :=
  if j.status = some "Downloading" then parse_sab_size_string (j.sizeleft.getD "0 GB")
  else parse_sab_size_string (j.size.getD "0 GB")

/-- The candidate-selection loop of source lines 194–205, with the running
`(job_to_delete, max_potential_size_gb)` accumulator. -/
def selGo : Option RawJob × ℚ → List RawJob → Option RawJob × ℚ
  | acc, [] => acc
  | acc, job :: rest =>
    if eligibleJob job = false then selGo acc rest
    else if effectiveSize job > acc.2 then selGo (some job, effectiveSize job) rest
    else selGo acc rest

/-- Candidate selection started from `(None, 0.0)` (source lines 191–192). -/
def selectCandidate (items : List RawJob) : Option RawJob × ℚ :=
  selGo (none, 0) items

/-- Step A, the unpause logic (source lines 165–181). -/
def stepA (cfg : Config) (env : Env) (snap : Snapshot) (s : WatchdogState) :
    WatchdogState × List Action :=
  if snap.overall_status = "Paused" then
    if snap.is_post_processing_active then
      ({ s with post_processing_active_counter := s.post_processing_active_counter + 1,
                sabnzbd_paused_counter := 0 }, [])
    else
      let s1 := { s with sabnzbd_paused_counter := s.sabnzbd_paused_counter + 1,
                         post_processing_active_counter := 0 }
      if s1.sabnzbd_paused_counter ≥ cfg.MAX_PAUSED_COUNT_FOR_UNPAUSE then
        if env.resumeOk then
          ({ s1 with sabnzbd_paused_counter := 0 }, [Action.Resume])
        else
          (s1, [Action.Resume])
      else
        (s1, [])
  else
    ({ s with sabnzbd_paused_counter := 0, post_processing_active_counter := 0 }, [])

/-- Step B, the disk-full management logic (source lines 184–257).  The
size-versus-buffer comparison of line 215 selects only the log narrative:
both branches call `delete_sabnzbd_job`, which the dead `if` mirrors. -/
def stepB (cfg : Config) (env : Env) (snap : Snapshot) (s : WatchdogState) :
    WatchdogState × List Action :=
  if snap.disk_space_free_gb < cfg.DISK_FREE_THRESHOLD_GB then
    let s1 := { s with disk_full_counter := s.disk_full_counter + 1 }
    if s1.disk_full_counter ≥ cfg.MAX_DISK_FULL_COUNT then
      match (selectCandidate snap.queue_items).1 with
      | some job =>
        let estimated_needed_gb := parse_sab_size_string (job.size.getD "0 GB")
        let deletion_successful :=
          if estimated_needed_gb > snap.disk_space_free_gb + cfg.SIZE_CHECK_BUFFER_GB then
            env.deleteOk
          else
            env.deleteOk
        if deletion_successful then
          let current_disk_free_gb := env.refetch.disk_space_free_gb
          if current_disk_free_gb < cfg.DISK_FREE_THRESHOLD_GB then
            let s2 := { s1 with disk_full_restart_counter := s1.disk_full_restart_counter + 1 }
            if s2.disk_full_restart_counter ≥ cfg.RESTART_ON_DISK_FULL_FAIL_COUNT then
              (initState, [Action.DeleteJob job, Action.ResetQueue, Action.RestartContainer])
            else
              (s2, [Action.DeleteJob job])
          else
            ({ s1 with disk_full_counter := 0, sabnzbd_paused_counter := 0,
                       post_processing_active_counter := 0, disk_full_restart_counter := 0 },
             [Action.DeleteJob job])
        else
          (s1, [Action.DeleteJob job])
      | none =>
        ({ s1 with disk_full_restart_counter := 0 }, [])
    else
      (s1, [])
  else
    ({ s with disk_full_counter := 0, disk_full_restart_counter := 0 }, [])

/-- Step C, the hang detection and restart logic (source lines 262–275).
The increment-or-reset and the threshold test are separate statements in
the source, so the threshold is also tested after a reset. -/
def stepC (cfg : Config) (snap : Snapshot) (s : WatchdogState) :
    WatchdogState × List Action :=
  let s1 :=
    if snap.overall_status = "Downloading" ∧ snap.speed = 0 ∧
        snap.is_post_processing_active = false then
      { s with zero_speed_hang_counter := s.zero_speed_hang_counter + 1 }
    else
      { s with zero_speed_hang_counter := 0 }
  if s1.zero_speed_hang_counter ≥ cfg.MAX_ZERO_COUNT then
    (initState, [Action.RestartContainer])
  else
    (s1, [])

/-- One full cycle of the `while True:` loop: step A, then step B, then
step C, with the actions in execution order. -/
def step (cfg : Config) (env : Env) (snap : Snapshot) (s : WatchdogState) :
    WatchdogState × List Action :=
  let ra := stepA cfg env snap s
  let rb := stepB cfg env snap ra.1
  let rc := stepC cfg snap rb.1
  (rc.1, ra.2 ++ rb.2 ++ rc.2)

/-- Counter state after `n` cycles, starting from the all-zero state, with
per-cycle snapshots `snaps` and per-cycle effect results `envs`. -/
def runState (cfg : Config) (snaps : ℕ → Snapshot) (envs : ℕ → Env) : ℕ → WatchdogState
  | 0 => initState
  | n + 1 => (step cfg (envs n) (snaps n) (runState cfg snaps envs n)).1

/-- The actions emitted by cycle `n` (counting from 0) of the run. -/
def cycleActions (cfg : Config) (snaps : ℕ → Snapshot) (envs : ℕ → Env) (n : ℕ) : List Action :=
  (step cfg (envs n) (snaps n) (runState cfg snaps envs n)).2

/-! ## `get_queue_info` (source lines 71–103)

The `except` clauses of the source catch only `RequestException` and
`(KeyError, ValueError)`.  A response field holding a JSON value of the
wrong *type* raises an exception the handlers do not catch: subscripting a
non-dict `data["queue"]` raises `TypeError`, `float(None)` and `int(None)`
raise `TypeError`, and a non-string `diskspace1` raises `AttributeError`
from `size_str.strip()` inside `parse_sab_size_string` (whose own `try`
catches only `ValueError`).  The model therefore types the raw fields as
JSON values (`PyVal`) and makes `get_queue_info` return
`Except PyExc Snapshot`, where `Except.error` is an uncaught exception
propagating out of the function (crashing the watchdog process).

Two harmless simplifications remain: `queue["status"]` is kept a string,
because a status of any JSON type raises nothing in this function and only
ever compares unequal to the status literals; and `queue["slots"]` is kept
a list of job records, because `get_queue_info` reads the slots only via
`job_slot.get("status")`.
-/

/-- A JSON value as the script may receive it: a string, a number, or
null (Python `None`).  Numbers are kept integral; a fractional number
behaves the same on every path modelled here. -/
inductive PyVal where
  | str (s : String)
  | num (n : ℤ)
  | null
deriving DecidableEq, Repr

/-- The exceptions `get_queue_info`'s handlers do not catch. -/
inductive PyExc where
  | typeError
  | attributeError
deriving DecidableEq, Repr

/-- Python `float(v)` on a JSON value: parse a string (inner `none` models
the caught `ValueError`), pass a number through, raise `TypeError` on
null. -/
def pyFloatVal : PyVal → Except PyExc (Option ℚ)
  | PyVal.str s => Except.ok (pyFloatChars s.data)
  | PyVal.num n => Except.ok (some (n : ℚ))
  | PyVal.null => Except.error PyExc.typeError

/-- Python `int(v)` on a JSON value. -/
def pyIntVal : PyVal → Except PyExc (Option ℤ)
  | PyVal.str s => Except.ok (pyIntChars s.data)
  | PyVal.num n => Except.ok (some n)
  | PyVal.null => Except.error PyExc.typeError

/-- `parse_sab_size_string(v)` as called at source line 86: on a string it
is total (its internal `try` turns `ValueError` into `0.0`), but on any
non-string it raises `AttributeError` from `size_str.strip()`, which no
enclosing handler catches. -/
def parseSizeVal : PyVal → Except PyExc ℚ
  | PyVal.str s => Except.ok (parseSizeChars s.data)
  | PyVal.num _ => Except.error PyExc.attributeError
  | PyVal.null => Except.error PyExc.attributeError

/-- The fields of `data["queue"]` the script reads (`none` models an
absent key, i.e. `KeyError`, which the handler catches). -/
structure RawQueue where
  kbpersec : Option PyVal
  status : Option String
  noofslots : Option PyVal
  diskspace1 : Option PyVal
  slots : Option (List RawJob)

/-- The value found under `data["queue"]`: a JSON object, or a primitive
value whose subscripting raises `TypeError`. -/
inductive QueueField where
  | obj (q : RawQueue)
  | prim (v : PyVal)

/-- A successfully decoded JSON response body. -/
structure RawData where
  queue : Option QueueField

/-- The outcome of the HTTP fetch: a decoded response, or a
`requests.exceptions.RequestException` (transport error, bad HTTP status,
or undecodable JSON body). -/
inductive FetchInput where
  | requestError
  | response (d : RawData)

/-- The field extraction of source lines 81–97.  `Except.ok none` is a
caught `KeyError`/`ValueError` (the handler at lines 101–103 returns the
sentinel); `Except.error` is an uncaught `TypeError`/`AttributeError`
propagating out of `get_queue_info`. -/
def extractSnapshot (d : RawData) : Except PyExc (Option Snapshot) :=
  match d.queue with
  | none => Except.ok none
  | some (QueueField.prim _) => Except.error PyExc.typeError
  | some (QueueField.obj queue) =>
    match queue.kbpersec with
    | none => Except.ok none
    | some kb =>
      match pyFloatVal kb with
      | Except.error e => Except.error e
      | Except.ok none => Except.ok none
      | Except.ok (some kbv) =>
        match queue.status with
        | none => Except.ok none
        | some overall_status =>
          match queue.noofslots with
          | none => Except.ok none
          | some ns =>
            match pyIntVal ns with
            | Except.error e => Except.error e
            | Except.ok none => Except.ok none
            | Except.ok (some active_download_slots) =>
              match queue.diskspace1 with
              | none => Except.ok none
              | some ds =>
                match parseSizeVal ds with
                | Except.error e => Except.error e
                | Except.ok disk_space_free_gb =>
                  let queue_items := queue.slots.getD []
                  let is_post_processing_active :=
                    queue_items.any (fun j => jobStatusIn j POST_PROCESSING_STATES)
                  Except.ok (some ⟨kbv * 1024, active_download_slots, overall_status,
                    is_post_processing_active, disk_space_free_gb, queue_items⟩)

/-- `get_queue_info`: transport errors and caught parse failures return
the sentinel tuple (source lines 98–103); an uncaught exception
propagates, crashing the watchdog. -/
def get_queue_info : FetchInput → Except PyExc Snapshot
  | FetchInput.requestError => Except.ok errorSnapshot
  | FetchInput.response d =>
    match extractSnapshot d with
    | Except.error e => Except.error e
    | Except.ok none => Except.ok errorSnapshot
    | Except.ok (some s) => Except.ok s

/-- A well-typed response except that `diskspace1` is a JSON number: the
source reaches `parse_sab_size_string(12)` at line 86 and crashes on
`size_str.strip()`. -/
def crashResponse : RawData :=
  ⟨some (QueueField.obj ⟨some (PyVal.str "100"), some "Idle",
    some (PyVal.str "0"), some (PyVal.num 12), some []⟩)⟩

/-! ## Concrete fixtures for scenario claims and the numeric-character class -/


/-- A job currently in post-processing (skipped by the deletion loop). -/
def verifyingJob : RawJob :=
  ⟨some "id-v", some "verify", some "Verifying", some "1.0 GB", some "2.0 GB"⟩

/-- A queued job of 3 GB total size. -/
def queuedJob : RawJob :=
  ⟨some "id-q", some "queued", some "Queued", some "3.0 GB", some "3.0 GB"⟩

/-- Paused-with-post-processing snapshot under disk pressure. -/
def ppPausedSnap : Snapshot :=
  ⟨0, 1, "Paused", true, 1, [verifyingJob, queuedJob]⟩

/-- A re-fetched snapshot whose disk is back above the threshold. -/
def recoveredSnap : Snapshot :=
  ⟨0, 1, "Paused", true, 10, []⟩

/-- Effect results for the C4 trace: the deletion succeeds and the re-fetch
sees recovered disk space. -/
def ppEnv : Env :=
  ⟨true, true, recoveredSnap⟩


/-- A completed job: never a deletion candidate. -/
def completedJob : RawJob :=
  ⟨some "id-c", some "done", some "Completed", some "0.0 GB", some "8.0 GB"⟩

/-- Low disk, hang condition firing, and only a completed job queued. -/
def hangLowDiskSnap : Snapshot :=
  ⟨0, 1, "Downloading", false, 0, [completedJob]⟩

/-- Low disk, no hang condition, and only a completed job queued. -/
def idleLowDiskSnap : Snapshot :=
  ⟨0, 0, "Idle", false, 0, [completedJob]⟩

/-- Effect results for failure traces: every API call fails. -/
def failEnv : Env :=
  ⟨false, false, errorSnapshot⟩


/-- A downloading job with 10 GB left. -/
def downloadingJob : RawJob :=
  ⟨some "id-dl", some "big", some "Downloading", some "10.0 GB", some "12.0 GB"⟩

/-- The disk-pressure scenario snapshot: 2 GB free (threshold 5), one
downloading job with 10 GB left and one queued job of 3 GB. -/
def diskPressureSnap : Snapshot :=
  ⟨100, 2, "Downloading", false, 2, [downloadingJob, queuedJob]⟩


/-- First-cycle snapshot for the C1 trace: hanging but disk fine. -/
def c1SnapA : Snapshot :=
  ⟨0, 1, "Downloading", false, 10, []⟩

/-- Later snapshots for the C1 trace: hanging and low disk with a queued
3 GB job. -/
def c1SnapB : Snapshot :=
  ⟨0, 1, "Downloading", false, 1, [queuedJob]⟩

/-- The C1 snapshot sequence. -/
def c1Snaps : ℕ → Snapshot :=
  fun n => if n = 0 then c1SnapA else c1SnapB

/-- Effect results for the C1 trace: deletions succeed but the re-fetch
still sees low disk. -/
def c1Env : Env :=
  ⟨false, true, c1SnapB⟩


/-- Paused with no post-processing, low disk, one deletable job. -/
def pausedLowSnap : Snapshot :=
  ⟨0, 1, "Paused", false, 1, [queuedJob]⟩

/-- Effect results for the C5 trace: the resume fails, the deletion
succeeds, and the re-fetch sees recovered disk space. -/
def resolveEnv : Env :=
  ⟨false, true, recoveredSnap⟩

/-- A configuration whose unpause and disk-full thresholds are 1, so both
fire on the first cycle. -/
def lowPausedConfig : Config :=
  ⟨3, 1, 5, 1, 1, 1⟩

/-- The characters a well-formed Python float literal may contain. -/
def numericChars (l : List Char) : Bool :=
  l.all (fun c => c.isDigit || c == '.' || c == '+' || c == '-' || c == 'e' || c == 'E')


/-! ## Lemmas about candidate selection -/

/-- Invariant of the selection loop: a `some` result is either the
accumulator passed through (with nothing in the list beating it), or an
eligible list element of maximal effective size, the first such in list
order (everything eligible before it is strictly smaller). -/
lemma selGo_eq_some (items : List RawJob) :
    ∀ (acc : Option RawJob × ℚ) (j : RawJob) (m : ℚ),
    selGo acc items = (some j, m) →
    (acc = (some j, m) ∧ ∀ j2 ∈ items, eligibleJob j2 = true → effectiveSize j2 ≤ m) ∨
    (∃ pre post, items = pre ++ j :: post ∧ eligibleJob j = true ∧ effectiveSize j = m ∧
      acc.2 < m ∧ (∀ j2 ∈ pre, eligibleJob j2 = true → effectiveSize j2 < m) ∧
      (∀ j2 ∈ post, eligibleJob j2 = true → effectiveSize j2 ≤ m)) := by
  induction items with
  | nil =>
    intro acc j m h
    simp only [selGo] at h
    exact Or.inl ⟨h, by simp⟩
  | cons job rest ih =>
    intro acc j m h
    simp only [selGo] at h
    by_cases he : eligibleJob job = false
    · rw [if_pos he] at h
      rcases ih acc j m h with ⟨ha, hb⟩ | ⟨pre, post, hsplit, h1, h2, h3, h4, h5⟩
      · refine Or.inl ⟨ha, ?_⟩
        intro j2 hj2 helig
        rcases List.mem_cons.mp hj2 with rfl | hmem
        · rw [he] at helig; cases helig
        · exact hb j2 hmem helig
      · refine Or.inr ⟨job :: pre, post, by simp [hsplit], h1, h2, h3, ?_, h5⟩
        intro j2 hj2 helig
        rcases List.mem_cons.mp hj2 with rfl | hmem
        · rw [he] at helig; cases helig
        · exact h4 j2 hmem helig
    · have he2 : eligibleJob job = true := by
        revert he; cases eligibleJob job <;> simp
      rw [if_neg (by simp [he2])] at h
      by_cases hgt : effectiveSize job > acc.2
      · rw [if_pos hgt] at h
        rcases ih (some job, effectiveSize job) j m h with
          ⟨ha, hb⟩ | ⟨pre, post, hsplit, h1, h2, h3, h4, h5⟩
        · have hj : job = j := by
            have := congrArg Prod.fst ha
            simpa using this
          have hm : effectiveSize job = m := congrArg Prod.snd ha
          subst hj
          refine Or.inr ⟨[], rest, by simp, he2, hm, lt_of_lt_of_le hgt (le_of_eq hm), by simp, ?_⟩
          intro j2 hj2 helig
          exact hb j2 hj2 helig
        · have hlt : effectiveSize job < m := by simpa using h3
          refine Or.inr ⟨job :: pre, post, by simp [hsplit], h1, h2, lt_trans hgt hlt, ?_, h5⟩
          intro j2 hj2 helig
          rcases List.mem_cons.mp hj2 with rfl | hmem
          · exact hlt
          · exact h4 j2 hmem helig
      · rw [if_neg hgt] at h
        rcases ih acc j m h with ⟨ha, hb⟩ | ⟨pre, post, hsplit, h1, h2, h3, h4, h5⟩
        · refine Or.inl ⟨ha, ?_⟩
          intro j2 hj2 helig
          rcases List.mem_cons.mp hj2 with rfl | hmem
          · have : acc.2 = m := congrArg Prod.snd ha
            rw [← this]; exact le_of_not_lt hgt
          · exact hb j2 hmem helig
        · refine Or.inr ⟨job :: pre, post, by simp [hsplit], h1, h2, h3, ?_, h5⟩
          intro j2 hj2 helig
          rcases List.mem_cons.mp hj2 with rfl | hmem
          · exact lt_of_le_of_lt (le_of_not_lt hgt) h3
          · exact h4 j2 hmem helig

/-- A selected candidate is an eligible member of the queue of strictly
positive, maximal effective size, and is the first job attaining the
maximum in queue order. -/
lemma selectCandidate_some {items : List RawJob} {j : RawJob} {m : ℚ}
    (h : selectCandidate items = (some j, m)) :
    eligibleJob j = true ∧ effectiveSize j = m ∧ 0 < m ∧ j ∈ items ∧
    (∀ j2 ∈ items, eligibleJob j2 = true → effectiveSize j2 ≤ m) ∧
    ∃ pre post, items = pre ++ j :: post ∧
      ∀ j2 ∈ pre, eligibleJob j2 = true → effectiveSize j2 < m := by
  rcases selGo_eq_some items (none, 0) j m h with ⟨ha, _⟩ | ⟨pre, post, hsplit, h1, h2, h3, h4, h5⟩
  · cases ha
  · have hpos : 0 < m := h3
    have hmem : j ∈ items := by rw [hsplit]; exact List.mem_append_right _ (List.mem_cons_self _ _)
    refine ⟨h1, h2, hpos, hmem, ?_, pre, post, hsplit, h4⟩
    intro j2 hj2 helig
    rw [hsplit] at hj2
    rcases List.mem_append.mp hj2 with hpre | hrest
    · exact le_of_lt (h4 j2 hpre helig)
    · rcases List.mem_cons.mp hrest with rfl | hpost
      · exact le_of_eq h2
      · exact h5 j2 hpost helig

/-- The pair returned by `selectCandidate`, reassembled from its fields. -/
lemma selectCandidate_eta (items : List RawJob) :
    selectCandidate items = ((selectCandidate items).1, (selectCandidate items).2) := rfl

/-- When every eligible job has non-positive effective size, the strict
`>` against the initial maximum `0.0` never fires and no candidate is
selected. -/
lemma selectCandidate_none_of_nonpos {items : List RawJob}
    (h : ∀ j ∈ items, eligibleJob j = true → effectiveSize j ≤ 0) :
    selectCandidate items = (none, 0) := by
  unfold selectCandidate
  induction items with
  | nil => simp [selGo]
  | cons job rest ih =>
    simp only [selGo]
    by_cases he : eligibleJob job = false
    · rw [if_pos he]
      exact ih (fun j hj helig => h j (List.mem_cons_of_mem _ hj) helig)
    · have he2 : eligibleJob job = true := by
        revert he; cases eligibleJob job <;> simp
      rw [if_neg (by simp [he2])]
      have hle : effectiveSize job ≤ 0 := h job (List.mem_cons_self _ _) he2
      rw [if_neg (by simpa using not_lt.mpr hle)]
      exact ih (fun j hj helig => h j (List.mem_cons_of_mem _ hj) helig)

/-! ## Per-component effect lemmas -/

/-- The unpause block touches only the paused and post-processing
counters: it increments exactly one of them and zeroes the other, except
that a resumed threshold cycle also zeroes the paused counter. -/
lemma stepA_effect (cfg : Config) (env : Env) (snap : Snapshot) (s : WatchdogState) :
    (stepA cfg env snap s).1.zero_speed_hang_counter = s.zero_speed_hang_counter ∧
    ((stepA cfg env snap s).1.sabnzbd_paused_counter = s.sabnzbd_paused_counter + 1 ∨
      (stepA cfg env snap s).1.sabnzbd_paused_counter = 0) ∧
    ((stepA cfg env snap s).1.post_processing_active_counter =
        s.post_processing_active_counter + 1 ∨
      (stepA cfg env snap s).1.post_processing_active_counter = 0) ∧
    (stepA cfg env snap s).1.disk_full_counter = s.disk_full_counter ∧
    (stepA cfg env snap s).1.disk_full_restart_counter = s.disk_full_restart_counter := by
  by_cases h1 : snap.overall_status = "Paused" <;>
  by_cases h2 : snap.is_post_processing_active = true <;>
  by_cases h3 : cfg.MAX_PAUSED_COUNT_FOR_UNPAUSE ≤ s.sabnzbd_paused_counter + 1 <;>
  by_cases h4 : env.resumeOk = true <;>
  simp [stepA, h1, h2, h3, h4, ge_iff_le]

/-- The disk-full block leaves the hang, paused and post-processing
counters alone or zeroes them, ends the disk counter at its incremented
value or zero, and ends the restart counter incremented, zeroed, or
untouched. -/
lemma stepB_effect (cfg : Config) (env : Env) (snap : Snapshot) (s : WatchdogState) :
    ((stepB cfg env snap s).1.zero_speed_hang_counter = s.zero_speed_hang_counter ∨
      (stepB cfg env snap s).1.zero_speed_hang_counter = 0) ∧
    ((stepB cfg env snap s).1.sabnzbd_paused_counter = s.sabnzbd_paused_counter ∨
      (stepB cfg env snap s).1.sabnzbd_paused_counter = 0) ∧
    ((stepB cfg env snap s).1.post_processing_active_counter =
        s.post_processing_active_counter ∨
      (stepB cfg env snap s).1.post_processing_active_counter = 0) ∧
    ((stepB cfg env snap s).1.disk_full_counter = s.disk_full_counter + 1 ∨
      (stepB cfg env snap s).1.disk_full_counter = 0) ∧
    ((stepB cfg env snap s).1.disk_full_restart_counter = s.disk_full_restart_counter + 1 ∨
      (stepB cfg env snap s).1.disk_full_restart_counter = 0 ∨
      (stepB cfg env snap s).1.disk_full_restart_counter = s.disk_full_restart_counter) := by
  by_cases h1 : snap.disk_space_free_gb < cfg.DISK_FREE_THRESHOLD_GB <;>
  by_cases h2 : cfg.MAX_DISK_FULL_COUNT ≤ s.disk_full_counter + 1 <;>
  rcases hc : (selectCandidate snap.queue_items).1 with _ | job <;>
  by_cases h3 : env.deleteOk = true <;>
  by_cases h4 : env.refetch.disk_space_free_gb < cfg.DISK_FREE_THRESHOLD_GB <;>
  by_cases h5 : cfg.RESTART_ON_DISK_FULL_FAIL_COUNT ≤ s.disk_full_restart_counter + 1 <;>
  simp [stepB, hc, h1, h2, h3, h4, h5, initState, ge_iff_le]

/-- The hang block increments or zeroes the hang counter and leaves the
others alone, except that the threshold restart zeroes everything. -/
lemma stepC_effect (cfg : Config) (snap : Snapshot) (s : WatchdogState) :
    ((stepC cfg snap s).1.zero_speed_hang_counter = s.zero_speed_hang_counter + 1 ∨
      (stepC cfg snap s).1.zero_speed_hang_counter = 0) ∧
    ((stepC cfg snap s).1.sabnzbd_paused_counter = s.sabnzbd_paused_counter ∨
      (stepC cfg snap s).1.sabnzbd_paused_counter = 0) ∧
    ((stepC cfg snap s).1.post_processing_active_counter =
        s.post_processing_active_counter ∨
      (stepC cfg snap s).1.post_processing_active_counter = 0) ∧
    ((stepC cfg snap s).1.disk_full_counter = s.disk_full_counter ∨
      (stepC cfg snap s).1.disk_full_counter = 0) ∧
    ((stepC cfg snap s).1.disk_full_restart_counter = s.disk_full_restart_counter ∨
      (stepC cfg snap s).1.disk_full_restart_counter = 0) := by
  by_cases h1 : snap.overall_status = "Downloading" ∧ snap.speed = 0 ∧
      snap.is_post_processing_active = false <;>
  by_cases h2 : cfg.MAX_ZERO_COUNT ≤ s.zero_speed_hang_counter + 1 <;>
  by_cases h3 : cfg.MAX_ZERO_COUNT ≤ 0 <;>
  simp [stepC, h1, h2, h3, initState, ge_iff_le]

/-- The unpause block emits at most a `Resume`. -/
lemma stepA_actions (cfg : Config) (env : Env) (snap : Snapshot) (s : WatchdogState) :
    (stepA cfg env snap s).2 = [] ∨ (stepA cfg env snap s).2 = [Action.Resume] := by
  by_cases h1 : snap.overall_status = "Paused" <;>
  by_cases h2 : snap.is_post_processing_active = true <;>
  by_cases h3 : cfg.MAX_PAUSED_COUNT_FOR_UNPAUSE ≤ s.sabnzbd_paused_counter + 1 <;>
  by_cases h4 : env.resumeOk = true <;>
  simp [stepA, h1, h2, h3, h4, ge_iff_le]

/-- The disk-full block never emits a `Resume`. -/
lemma stepB_no_resume (cfg : Config) (env : Env) (snap : Snapshot) (s : WatchdogState) :
    Action.Resume ∉ (stepB cfg env snap s).2 := by
  by_cases h1 : snap.disk_space_free_gb < cfg.DISK_FREE_THRESHOLD_GB <;>
  by_cases h2 : cfg.MAX_DISK_FULL_COUNT ≤ s.disk_full_counter + 1 <;>
  rcases hc : (selectCandidate snap.queue_items).1 with _ | job <;>
  by_cases h3 : env.deleteOk = true <;>
  by_cases h4 : env.refetch.disk_space_free_gb < cfg.DISK_FREE_THRESHOLD_GB <;>
  by_cases h5 : cfg.RESTART_ON_DISK_FULL_FAIL_COUNT ≤ s.disk_full_restart_counter + 1 <;>
  simp [stepB, hc, h1, h2, h3, h4, h5, ge_iff_le]

/-- Every `DeleteJob` the disk-full block emits carries the selected
candidate. -/
lemma stepB_delete_candidate (cfg : Config) (env : Env) (snap : Snapshot) (s : WatchdogState)
    (j : RawJob) (hj : Action.DeleteJob j ∈ (stepB cfg env snap s).2) :
    (selectCandidate snap.queue_items).1 = some j := by
  by_cases h1 : snap.disk_space_free_gb < cfg.DISK_FREE_THRESHOLD_GB <;>
  by_cases h2 : cfg.MAX_DISK_FULL_COUNT ≤ s.disk_full_counter + 1 <;>
  rcases hc : (selectCandidate snap.queue_items).1 with _ | job <;>
  by_cases h3 : env.deleteOk = true <;>
  by_cases h4 : env.refetch.disk_space_free_gb < cfg.DISK_FREE_THRESHOLD_GB <;>
  by_cases h5 : cfg.RESTART_ON_DISK_FULL_FAIL_COUNT ≤ s.disk_full_restart_counter + 1 <;>
  simp_all [stepB, hc, h1, h2, h3, h4, h5, ge_iff_le]

/-- Only the disk-full block emits `DeleteJob` actions. -/
lemma stepA_no_delete (cfg : Config) (env : Env) (snap : Snapshot) (s : WatchdogState)
    (j : RawJob) : Action.DeleteJob j ∉ (stepA cfg env snap s).2 := by
  rcases stepA_actions cfg env snap s with h | h <;> simp [h]

/-- The hang block emits at most a `RestartContainer`. -/
lemma stepC_actions (cfg : Config) (snap : Snapshot) (s : WatchdogState) :
    (stepC cfg snap s).2 = [] ∨ (stepC cfg snap s).2 = [Action.RestartContainer] := by
  by_cases h1 : snap.overall_status = "Downloading" ∧ snap.speed = 0 ∧
      snap.is_post_processing_active = false <;>
  by_cases h2 : cfg.MAX_ZERO_COUNT ≤ s.zero_speed_hang_counter + 1 <;>
  by_cases h3 : cfg.MAX_ZERO_COUNT ≤ 0 <;>
  simp [stepC, h1, h2, h3, ge_iff_le]


lemma parse_three_gb : parse_sab_size_string "3.0 GB" = 3 := by
  have hs : sizeSplit "3.0 GB".data = (SizeUnit.gb, ['3', '.', '0']) := by decide
  have hp : pyFloatParse ['3', '.', '0'] = some ⟨false, ['3'], ['0'], false, []⟩ := by decide
  have d1 : digitsVal ['3'] = 3 := by decide
  have d2 : digitsVal ['0'] = 0 := by decide
  have d3 : digitsVal ([] : List Char) = 0 := by decide
  simp [parse_sab_size_string, parseSizeChars, hs, pyFloatChars, hp, repValue, d1, d2, d3]

lemma effectiveSize_queuedJob : effectiveSize queuedJob = 3 := by
  simp [effectiveSize, queuedJob, parse_three_gb]


/-! ## Claim theorems -/

/-- C10: on a cycle where the deletion threshold is met but no candidate is
found, the disk-full block resets `diskFullRestartCounter` to 0, keeps the
pre-branch increment of `diskFullCounter`, leaves the hang, paused and
post-processing counters untouched, and emits nothing. -/
theorem spec_C10_no_candidate_frame (cfg : Config) (env : Env) (snap : Snapshot)
    (s : WatchdogState)
    (hdisk : snap.disk_space_free_gb < cfg.DISK_FREE_THRESHOLD_GB)
    (hmax : cfg.MAX_DISK_FULL_COUNT ≤ s.disk_full_counter + 1)
    (hnone : (selectCandidate snap.queue_items).1 = none) :
    stepB cfg env snap s =
      ({ s with disk_full_counter := s.disk_full_counter + 1,
                disk_full_restart_counter := 0 }, []) := by
  simp [stepB, hdisk, hmax, hnone, ge_iff_le]

theorem spec_C10_witness :
    stepB defaultConfig ⟨false, false, errorSnapshot⟩
      ⟨0, 1, "Idle", false, 0, []⟩ ⟨0, 0, 0, 1, 4⟩ = (⟨0, 0, 0, 2, 0⟩, []) :=
  spec_C10_no_candidate_frame defaultConfig ⟨false, false, errorSnapshot⟩
    ⟨0, 1, "Idle", false, 0, []⟩ ⟨0, 0, 0, 1, 4⟩ (by norm_num [defaultConfig])
    (by norm_num [defaultConfig]) rfl


/-- C9: when every eligible job's effective size parses to exactly 0.0, the
strict comparison against the initial maximum 0.0 never fires, no candidate
is selected, no `DeleteJob` is emitted, and a threshold cycle falls through
to the no-candidate branch; in general a candidate is only ever selected
when its effective size is strictly positive. -/
theorem spec_C9_zero_size_no_candidate (cfg : Config) (env : Env) (snap : Snapshot)
    (s : WatchdogState)
    (helig : ∃ j ∈ snap.queue_items, eligibleJob j = true)
    (hzero : ∀ j ∈ snap.queue_items, eligibleJob j = true → effectiveSize j = 0) :
    selectCandidate snap.queue_items = (none, 0) ∧
    (∀ j : RawJob, Action.DeleteJob j ∉ (step cfg env snap s).2) ∧
    (∀ s2 : WatchdogState, snap.disk_space_free_gb < cfg.DISK_FREE_THRESHOLD_GB →
      cfg.MAX_DISK_FULL_COUNT ≤ s2.disk_full_counter + 1 →
      stepB cfg env snap s2 =
        ({ s2 with disk_full_counter := s2.disk_full_counter + 1,
                   disk_full_restart_counter := 0 }, [])) ∧
    (∀ (items : List RawJob) (j : RawJob) (m : ℚ),
      selectCandidate items = (some j, m) → 0 < effectiveSize j) := by
  have hnone : selectCandidate snap.queue_items = (none, 0) :=
    selectCandidate_none_of_nonpos (fun j hj he => le_of_eq (hzero j hj he))
  have hnone1 : (selectCandidate snap.queue_items).1 = none := by rw [hnone]
  refine ⟨hnone, ?_, ?_, ?_⟩
  · intro j hj
    have hsplit : (step cfg env snap s).2 =
        (stepA cfg env snap s).2 ++
          (stepB cfg env snap (stepA cfg env snap s).1).2 ++
          (stepC cfg snap (stepB cfg env snap (stepA cfg env snap s).1).1).2 := rfl
    rw [hsplit] at hj
    rcases List.mem_append.mp hj with hab | hcm
    · rcases List.mem_append.mp hab with ha | hb
      · exact stepA_no_delete cfg env snap s j ha
      · have := stepB_delete_candidate cfg env snap (stepA cfg env snap s).1 j hb
        rw [hnone1] at this
        cases this
    · rcases stepC_actions cfg snap (stepB cfg env snap (stepA cfg env snap s).1).1 with
        hc | hc <;> rw [hc] at hcm <;> simp at hcm
  · intro s2 h1 h2
    simp [stepB, h1, h2, hnone1, ge_iff_le]
  · intro items j m hsel
    obtain ⟨_, he, hpos, _⟩ := selectCandidate_some hsel
    rw [he]
    exact hpos

theorem spec_C9_witness :
    selectCandidate [(⟨some "a", some "a", some "Queued", some "bad", some "junk"⟩ : RawJob)]
        = (none, 0) ∧
    (∀ j : RawJob, Action.DeleteJob j ∉
      (step defaultConfig ⟨false, false, errorSnapshot⟩
        ⟨0, 1, "Idle", false, 0,
          [⟨some "a", some "a", some "Queued", some "bad", some "junk"⟩]⟩ initState).2) := by
  have h := spec_C9_zero_size_no_candidate defaultConfig ⟨false, false, errorSnapshot⟩
    ⟨0, 1, "Idle", false, 0, [⟨some "a", some "a", some "Queued", some "bad", some "junk"⟩]⟩
    initState
    ⟨⟨some "a", some "a", some "Queued", some "bad", some "junk"⟩, by simp, by decide⟩
    (by
      intro j hj he
      simp at hj
      subst hj
      have hs : sizeSplit "junk".data = (SizeUnit.bare, "junk".data) := by decide
      have hp : pyFloatParse "junk".data = none := by decide
      simp [effectiveSize, parse_sab_size_string, parseSizeChars, hs, pyFloatChars, hp])
  exact ⟨h.1, h.2.1⟩


/-- C5 counterexample: a qualifying paused cycle whose resume fails does
not always leave `pausedCounter` unchanged: a same-cycle successful
deletion that resolves disk pressure resets it to 0, so the claimed
"left unchanged / retried every subsequent qualifying cycle" behaviour
fails as stated. -/
theorem spec_C5_counterexample :
    pausedLowSnap.overall_status = "Paused" ∧
    pausedLowSnap.is_post_processing_active = false ∧
    lowPausedConfig.MAX_PAUSED_COUNT_FOR_UNPAUSE ≤ initState.sabnzbd_paused_counter + 1 ∧
    resolveEnv.resumeOk = false ∧
    Action.Resume ∈ (step lowPausedConfig resolveEnv pausedLowSnap initState).2 ∧
    (step lowPausedConfig resolveEnv pausedLowSnap
        initState).1.sabnzbd_paused_counter = 0 ∧
    (step lowPausedConfig resolveEnv pausedLowSnap
        initState).1.sabnzbd_paused_counter ≠ initState.sabnzbd_paused_counter + 1 := by
  have hsel : (selectCandidate [queuedJob]).1 = some queuedJob := by
    simp [selectCandidate, selGo, show eligibleJob queuedJob = true from by decide,
      effectiveSize_queuedJob, show (0 : ℚ) < 3 from by norm_num]
  have hstep : step lowPausedConfig resolveEnv pausedLowSnap initState =
      (initState, [Action.Resume, Action.DeleteJob queuedJob]) := by
    simp [step, stepA, stepB, stepC, pausedLowSnap, resolveEnv, recoveredSnap, initState,
      lowPausedConfig, ge_iff_le, hsel, show (1 : ℚ) < 5 from by norm_num,
      show ¬((10 : ℚ) < 5) from by norm_num]
  rw [hstep]
  exact ⟨rfl, rfl, by decide, rfl, by simp, rfl, by decide⟩

/-- C5 (amended): on a qualifying paused cycle that reaches the unpause
threshold, a `Resume` is emitted; on success the paused counter is reset
to 0, and on failure it keeps exactly its incremented value (it is not
re-incremented within the cycle) so the threshold re-fires on the next
qualifying paused cycle — provided no same-cycle disk-full remediation or
hang restart resets it (disk above threshold, `maxZeroCount` positive);
under those conditions the `Resume` is the only action of the cycle. -/
theorem spec_C5_resume_threshold_retry (cfg : Config) (env : Env) (snap : Snapshot)
    (s : WatchdogState)
    (hp : snap.overall_status = "Paused")
    (hpp : snap.is_post_processing_active = false)
    (hth : cfg.MAX_PAUSED_COUNT_FOR_UNPAUSE ≤ s.sabnzbd_paused_counter + 1)
    (hd : cfg.DISK_FREE_THRESHOLD_GB ≤ snap.disk_space_free_gb)
    (hz : 0 < cfg.MAX_ZERO_COUNT) :
    (step cfg env snap s).2 = [Action.Resume] ∧
    (step cfg env snap s).1.sabnzbd_paused_counter =
      (if env.resumeOk then 0 else s.sabnzbd_paused_counter + 1) ∧
    (env.resumeOk = false →
      cfg.MAX_PAUSED_COUNT_FOR_UNPAUSE ≤
        (step cfg env snap s).1.sabnzbd_paused_counter + 1) := by
  have hnl : ¬(snap.disk_space_free_gb < cfg.DISK_FREE_THRESHOLD_GB) := not_lt.mpr hd
  have hnz : ¬(cfg.MAX_ZERO_COUNT ≤ 0) := by omega
  by_cases hr : env.resumeOk = true
  · refine ⟨?_, ?_, ?_⟩
    · simp [step, stepA, stepB, stepC, hp, hpp, hth, hr, hnl, hnz, ge_iff_le]
    · simp [step, stepA, stepB, stepC, hp, hpp, hth, hr, hnl, hnz, ge_iff_le]
    · intro hfalse
      rw [hr] at hfalse
      cases hfalse
  · refine ⟨?_, ?_, ?_⟩
    · simp [step, stepA, stepB, stepC, hp, hpp, hth, hr, hnl, hnz, ge_iff_le]
    · simp [step, stepA, stepB, stepC, hp, hpp, hth, hr, hnl, hnz, ge_iff_le]
    · intro hfalse
      have : (step cfg env snap s).1.sabnzbd_paused_counter = s.sabnzbd_paused_counter + 1 := by
        simp [step, stepA, stepB, stepC, hp, hpp, hth, hr, hnl, hnz, ge_iff_le]
      omega

theorem spec_C5_witness :
    (step defaultConfig ⟨false, true, errorSnapshot⟩
        ⟨0, 0, "Paused", false, 9, []⟩ ⟨0, 4, 0, 0, 0⟩).2 = [Action.Resume] ∧
    (step defaultConfig ⟨false, true, errorSnapshot⟩
        ⟨0, 0, "Paused", false, 9, []⟩ ⟨0, 4, 0, 0, 0⟩).1.sabnzbd_paused_counter = 5 := by
  have h := spec_C5_resume_threshold_retry defaultConfig ⟨false, true, errorSnapshot⟩
    ⟨0, 0, "Paused", false, 9, []⟩ ⟨0, 4, 0, 0, 0⟩ rfl rfl
    (by norm_num [defaultConfig]) (by norm_num [defaultConfig]) (by norm_num [defaultConfig])
  refine ⟨h.1, ?_⟩
  have := h.2.1
  simpa using this

/-- C7 (code bug): transport errors and caught parse failures (missing
keys, unparsable numeric strings) return exactly the sentinel snapshot,
and sentinel cycles from the all-zero state emit no action with the hang
and paused counters pinned at 0 — but `get_queue_info` does not "never
raise": only `RequestException`, `KeyError` and `ValueError` are caught,
so a response whose `diskspace1` field is a JSON number reaches
`parse_sab_size_string`, whose `size_str.strip()` raises an uncaught
`AttributeError`, crashing the watchdog instead of producing the
sentinel. -/
theorem spec_C7_uncaught_crash (cfg : Config) (envs : ℕ → Env) :
    get_queue_info FetchInput.requestError = Except.ok errorSnapshot ∧
    (∀ d : RawData, extractSnapshot d = Except.ok none →
      get_queue_info (FetchInput.response d) = Except.ok errorSnapshot) ∧
    get_queue_info (FetchInput.response crashResponse) =
      Except.error PyExc.attributeError ∧
    (0 < cfg.MAX_ZERO_COUNT →
      ∀ n : ℕ, cycleActions cfg (fun _ => errorSnapshot) envs n = [] ∧
        (runState cfg (fun _ => errorSnapshot) envs n).zero_speed_hang_counter = 0 ∧
        (runState cfg (fun _ => errorSnapshot) envs n).sabnzbd_paused_counter = 0) := by
  refine ⟨rfl, fun d h => by simp [get_queue_info, h], rfl, fun hz n => ?_⟩
  have hnz : ¬(cfg.MAX_ZERO_COUNT ≤ 0) := by omega
  have key : ∀ (e : Env) (s : WatchdogState),
      (step cfg e errorSnapshot s).2 = [] ∧
      (step cfg e errorSnapshot s).1.zero_speed_hang_counter = 0 ∧
      (step cfg e errorSnapshot s).1.sabnzbd_paused_counter = 0 := by
    intro e s
    by_cases h1 : (0 : ℚ) < cfg.DISK_FREE_THRESHOLD_GB <;>
    by_cases h2 : cfg.MAX_DISK_FULL_COUNT ≤ s.disk_full_counter + 1 <;>
    simp [step, stepA, stepB, stepC, errorSnapshot, selectCandidate, selGo,
      h1, h2, hnz, ge_iff_le]
  refine ⟨key (envs n) _ |>.1, ?_, ?_⟩
  · cases n with
    | zero => simp [runState, initState]
    | succ m => exact (key (envs m) _).2.1
  · cases n with
    | zero => simp [runState, initState]
    | succ m => exact (key (envs m) _).2.2

theorem spec_C7_witness :
    get_queue_info (FetchInput.response ⟨none⟩) = Except.ok errorSnapshot ∧
    get_queue_info (FetchInput.response crashResponse) =
      Except.error PyExc.attributeError ∧
    cycleActions defaultConfig (fun _ => errorSnapshot)
      (fun _ => ⟨false, false, errorSnapshot⟩) 2 = [] ∧
    (runState defaultConfig (fun _ => errorSnapshot)
      (fun _ => ⟨false, false, errorSnapshot⟩) 2).zero_speed_hang_counter = 0 := by
  have h := spec_C7_uncaught_crash defaultConfig (fun _ => ⟨false, false, errorSnapshot⟩)
  exact ⟨h.2.1 ⟨none⟩ rfl, h.2.2.1, (h.2.2.2 (by decide) 2).1, (h.2.2.2 (by decide) 2).2.1⟩

/-- C2: from the all-zero state, a constant hang snapshot (`Downloading`,
zero speed, one active slot, no post-processing, disk above threshold)
emits nothing on the first `maxZeroCount - 1` cycles, exactly one
`RestartContainer` on the final cycle, and leaves every counter at 0. -/
theorem spec_C2_hang_restart (cfg : Config) (snap : Snapshot) (envs : ℕ → Env)
    (hst : snap.overall_status = "Downloading") (hsp : snap.speed = 0)
    (hsl : snap.active_download_slots = 1)
    (hpp : snap.is_post_processing_active = false)
    (hd : cfg.DISK_FREE_THRESHOLD_GB ≤ snap.disk_space_free_gb)
    (hmax : 1 ≤ cfg.MAX_ZERO_COUNT) :
    (∀ k : ℕ, k + 1 < cfg.MAX_ZERO_COUNT →
      cycleActions cfg (fun _ => snap) envs k = []) ∧
    cycleActions cfg (fun _ => snap) envs (cfg.MAX_ZERO_COUNT - 1) =
      [Action.RestartContainer] ∧
    runState cfg (fun _ => snap) envs cfg.MAX_ZERO_COUNT = initState := by
  have hnp : ¬(snap.overall_status = "Paused") := by rw [hst]; decide
  have hnl : ¬(snap.disk_space_free_gb < cfg.DISK_FREE_THRESHOLD_GB) := not_lt.mpr hd
  have run_k : ∀ k : ℕ, k < cfg.MAX_ZERO_COUNT →
      runState cfg (fun _ => snap) envs k = ⟨k, 0, 0, 0, 0⟩ := by
    intro k
    induction k with
    | zero => intro _; simp [runState, initState]
    | succ m ih =>
      intro hlt
      have hrm := ih (by omega)
      have hnr : ¬(cfg.MAX_ZERO_COUNT ≤ m + 1) := by omega
      show (step cfg (envs m) snap (runState cfg (fun _ => snap) envs m)).1 = _
      rw [hrm]
      simp [step, stepA, stepB, stepC, hnp, hnl, hst, hsp, hpp, hnr, ge_iff_le]
  refine ⟨?_, ?_, ?_⟩
  · intro k hk
    have hrk := run_k k (by omega)
    have hnr : ¬(cfg.MAX_ZERO_COUNT ≤ k + 1) := by omega
    unfold cycleActions
    rw [hrk]
    simp [step, stepA, stepB, stepC, hnp, hnl, hst, hsp, hpp, hnr, ge_iff_le]
  · have hrk := run_k (cfg.MAX_ZERO_COUNT - 1) (by omega)
    have hyes : cfg.MAX_ZERO_COUNT ≤ cfg.MAX_ZERO_COUNT - 1 + 1 := by omega
    unfold cycleActions
    rw [hrk]
    simp [step, stepA, stepB, stepC, hnp, hnl, hst, hsp, hpp, hyes, ge_iff_le]
  · have hrk := run_k (cfg.MAX_ZERO_COUNT - 1) (by omega)
    have hyes : cfg.MAX_ZERO_COUNT ≤ cfg.MAX_ZERO_COUNT - 1 + 1 := by omega
    rw [show cfg.MAX_ZERO_COUNT = (cfg.MAX_ZERO_COUNT - 1) + 1 from by omega]
    show (step cfg (envs _) snap (runState cfg (fun _ => snap) envs (cfg.MAX_ZERO_COUNT - 1))).1 = _
    rw [hrk]
    simp [step, stepA, stepB, stepC, hnp, hnl, hst, hsp, hpp, hyes, ge_iff_le, initState]

theorem spec_C2_witness :
    cycleActions defaultConfig (fun _ => ⟨0, 1, "Downloading", false, 10, []⟩)
      (fun _ => ⟨false, false, errorSnapshot⟩) 0 = [] ∧
    cycleActions defaultConfig (fun _ => ⟨0, 1, "Downloading", false, 10, []⟩)
      (fun _ => ⟨false, false, errorSnapshot⟩) 2 = [Action.RestartContainer] ∧
    runState defaultConfig (fun _ => ⟨0, 1, "Downloading", false, 10, []⟩)
      (fun _ => ⟨false, false, errorSnapshot⟩) 3 = initState := by
  have h := spec_C2_hang_restart defaultConfig ⟨0, 1, "Downloading", false, 10, []⟩
    (fun _ => ⟨false, false, errorSnapshot⟩) rfl rfl rfl rfl
    (by norm_num [defaultConfig]) (by decide)
  exact ⟨h.1 0 (by decide), h.2.1, h.2.2⟩


lemma selectCandidate_pp_queue :
    selectCandidate [verifyingJob, queuedJob] = (some queuedJob, 3) := by
  have hv : eligibleJob verifyingJob = false := by decide
  have hq : eligibleJob queuedJob = true := by decide
  simp [selectCandidate, selGo, hv, hq, effectiveSize_queuedJob,
    show (0 : ℚ) < 3 from by norm_num]

lemma ppTrace_one :
    runState defaultConfig (fun _ => ppPausedSnap) (fun _ => ppEnv) 1 = ⟨0, 0, 1, 1, 0⟩ := by
  show (step defaultConfig ppEnv ppPausedSnap initState).1 = _
  simp [step, stepA, stepB, stepC, ppPausedSnap, initState, defaultConfig, ge_iff_le,
    show (1 : ℚ) < 5 from by norm_num]

lemma ppTrace_two :
    runState defaultConfig (fun _ => ppPausedSnap) (fun _ => ppEnv) 2 = initState := by
  show (step defaultConfig ppEnv ppPausedSnap
    (runState defaultConfig (fun _ => ppPausedSnap) (fun _ => ppEnv) 1)).1 = _
  rw [ppTrace_one]
  have hsel : (selectCandidate [verifyingJob, queuedJob]).1 = some queuedJob := by
    rw [selectCandidate_pp_queue]
  simp [step, stepA, stepB, stepC, ppPausedSnap, ppEnv, recoveredSnap, initState,
    defaultConfig, ge_iff_le, hsel,
    show (1 : ℚ) < 5 from by norm_num, show ¬((10 : ℚ) < 5) from by norm_num]

/-- C4 counterexample: with `status=Paused, postProcessingActive=true` on
every cycle, the second cycle of this run ends with
`postProcessingCounter = 0`, not its start value plus one: the same-cycle
successful disk-full deletion resets the counter, so "each such cycle
increments postProcessingCounter by one" fails as stated. -/
theorem spec_C4_counterexample :
    ppPausedSnap.overall_status = "Paused" ∧
    ppPausedSnap.is_post_processing_active = true ∧
    (runState defaultConfig (fun _ => ppPausedSnap) (fun _ => ppEnv)
        1).post_processing_active_counter = 1 ∧
    (runState defaultConfig (fun _ => ppPausedSnap) (fun _ => ppEnv)
        2).post_processing_active_counter = 0 ∧
    (runState defaultConfig (fun _ => ppPausedSnap) (fun _ => ppEnv)
        2).post_processing_active_counter ≠
      (runState defaultConfig (fun _ => ppPausedSnap) (fun _ => ppEnv)
        1).post_processing_active_counter + 1 := by
  refine ⟨rfl, rfl, ?_, ?_, ?_⟩
  · rw [ppTrace_one]
  · rw [ppTrace_two]; rfl
  · rw [ppTrace_one, ppTrace_two]; decide

/-- C4 (amended): a paused snapshot with active post-processing never
yields a `Resume`, and always ends the cycle with `pausedCounter = 0`; the
per-cycle increment of `postProcessingCounter` additionally holds whenever
no same-cycle disk-full remediation interferes (disk above threshold) and
`maxZeroCount` is positive. -/
theorem spec_C4_paused_postprocessing (cfg : Config) (snaps : ℕ → Snapshot) (envs : ℕ → Env)
    (hp : ∀ n, (snaps n).overall_status = "Paused")
    (hpp : ∀ n, (snaps n).is_post_processing_active = true) :
    (∀ n, Action.Resume ∉ cycleActions cfg snaps envs n) ∧
    (∀ n, (runState cfg snaps envs (n + 1)).sabnzbd_paused_counter = 0) ∧
    ((∀ n, cfg.DISK_FREE_THRESHOLD_GB ≤ (snaps n).disk_space_free_gb) →
      0 < cfg.MAX_ZERO_COUNT →
      ∀ n, (runState cfg snaps envs n).post_processing_active_counter = n) := by
  have hA : ∀ n s, stepA cfg (envs n) (snaps n) s =
      ({ s with post_processing_active_counter := s.post_processing_active_counter + 1,
                sabnzbd_paused_counter := 0 }, []) := by
    intro n s
    simp [stepA, hp n, hpp n]
  refine ⟨?_, ?_, ?_⟩
  · intro n hmem
    have hsplit : cycleActions cfg snaps envs n =
        (stepA cfg (envs n) (snaps n) (runState cfg snaps envs n)).2 ++
          (stepB cfg (envs n) (snaps n)
            (stepA cfg (envs n) (snaps n) (runState cfg snaps envs n)).1).2 ++
          (stepC cfg (snaps n)
            (stepB cfg (envs n) (snaps n)
              (stepA cfg (envs n) (snaps n) (runState cfg snaps envs n)).1).1).2 := rfl
    rw [hsplit, hA] at hmem
    rcases List.mem_append.mp hmem with hab | hcm
    · rcases List.mem_append.mp hab with ha | hb
      · simp at ha
      · exact stepB_no_resume _ _ _ _ hb
    · rcases stepC_actions cfg (snaps n) _ with hc | hc <;> rw [hc] at hcm <;> simp at hcm
  · intro n
    show (step cfg (envs n) (snaps n) (runState cfg snaps envs n)).1.sabnzbd_paused_counter = 0
    have h1 : (stepA cfg (envs n) (snaps n)
        (runState cfg snaps envs n)).1.sabnzbd_paused_counter = 0 := by rw [hA]
    obtain ⟨-, hBp, -⟩ := stepB_effect cfg (envs n) (snaps n)
      (stepA cfg (envs n) (snaps n) (runState cfg snaps envs n)).1
    obtain ⟨-, hCp, -⟩ := stepC_effect cfg (snaps n)
      (stepB cfg (envs n) (snaps n)
        (stepA cfg (envs n) (snaps n) (runState cfg snaps envs n)).1).1
    show (stepC cfg (snaps n) _).1.sabnzbd_paused_counter = 0
    rcases hCp with hCp | hCp
    · rw [hCp]
      rcases hBp with hBp | hBp
      · rw [hBp, h1]
      · exact hBp
    · exact hCp
  · intro hdisk hz n
    have key : ∀ n s, (step cfg (envs n) (snaps n) s).1.post_processing_active_counter =
        s.post_processing_active_counter + 1 := by
      intro n s
      simp [step, stepA, stepB, stepC, hp n, hpp n, not_lt.mpr (hdisk n),
        show ¬(cfg.MAX_ZERO_COUNT ≤ 0) from by omega, ge_iff_le]
    induction n with
    | zero => rfl
    | succ m ih =>
      show (step cfg (envs m) (snaps m) (runState cfg snaps envs m)).1.post_processing_active_counter = m + 1
      rw [key, ih]

theorem spec_C4_witness :
    Action.Resume ∉ cycleActions defaultConfig (fun _ => recoveredSnap)
      (fun _ => ppEnv) 0 ∧
    (runState defaultConfig (fun _ => recoveredSnap) (fun _ => ppEnv)
        1).sabnzbd_paused_counter = 0 ∧
    (runState defaultConfig (fun _ => recoveredSnap) (fun _ => ppEnv)
        2).post_processing_active_counter = 2 := by
  have h := spec_C4_paused_postprocessing defaultConfig (fun _ => recoveredSnap)
    (fun _ => ppEnv) (fun _ => rfl) (fun _ => rfl)
  exact ⟨h.1 0, h.2.1 0,
    h.2.2 (fun _ => by norm_num [recoveredSnap, defaultConfig]) (by decide) 2⟩


/-- C6 counterexample: low disk with no deletion candidate on every cycle,
but the hang condition also fires; on the third cycle the hang restart
zeroes `diskFullCounter`, so it does not "keep incrementing by one each
cycle without bound" as claimed. -/
theorem spec_C6_counterexample :
    hangLowDiskSnap.disk_space_free_gb < defaultConfig.DISK_FREE_THRESHOLD_GB ∧
    (∀ j ∈ hangLowDiskSnap.queue_items, eligibleJob j = false) ∧
    (runState defaultConfig (fun _ => hangLowDiskSnap) (fun _ => failEnv)
        2).disk_full_counter = 2 ∧
    (runState defaultConfig (fun _ => hangLowDiskSnap) (fun _ => failEnv)
        3).disk_full_counter = 0 ∧
    (runState defaultConfig (fun _ => hangLowDiskSnap) (fun _ => failEnv)
        3).disk_full_counter ≠
      (runState defaultConfig (fun _ => hangLowDiskSnap) (fun _ => failEnv)
        2).disk_full_counter + 1 := by
  decide

/-- C6 (amended): when no deletion candidate exists (every queued job is
completed, failed or post-processing), no `DeleteJob` is ever emitted —
unconditionally, for every configuration, state and effect results; and
`diskFullCounter` increments by one each low-disk cycle without bound and
without crashing, provided the hang-restart condition does not fire during
the window and `maxZeroCount` is positive (a concurrent hang-triggered
container restart would zero the counter). -/
theorem spec_C6_no_candidate_unbounded (cfg : Config) (snaps : ℕ → Snapshot)
    (envs : ℕ → Env)
    (hin : ∀ n, ∀ j ∈ (snaps n).queue_items, eligibleJob j = false) :
    (∀ n (j : RawJob), Action.DeleteJob j ∉ cycleActions cfg snaps envs n) ∧
    ((∀ n, (snaps n).disk_space_free_gb < cfg.DISK_FREE_THRESHOLD_GB) →
      (∀ n, ¬((snaps n).overall_status = "Downloading" ∧ (snaps n).speed = 0 ∧
          (snaps n).is_post_processing_active = false)) →
      0 < cfg.MAX_ZERO_COUNT →
      ∀ n, (runState cfg snaps envs n).disk_full_counter = n) := by
  have hnone : ∀ n, (selectCandidate (snaps n).queue_items).1 = none := by
    intro n
    rw [selectCandidate_none_of_nonpos
      (fun j hj he => absurd he (by simp [hin n j hj]))]
  refine ⟨?_, ?_⟩
  · intro n j hmem
    have hsplit : cycleActions cfg snaps envs n =
        (stepA cfg (envs n) (snaps n) (runState cfg snaps envs n)).2 ++
          (stepB cfg (envs n) (snaps n)
            (stepA cfg (envs n) (snaps n) (runState cfg snaps envs n)).1).2 ++
          (stepC cfg (snaps n)
            (stepB cfg (envs n) (snaps n)
              (stepA cfg (envs n) (snaps n) (runState cfg snaps envs n)).1).1).2 := rfl
    rw [hsplit] at hmem
    rcases List.mem_append.mp hmem with hab | hcm
    · rcases List.mem_append.mp hab with ha | hb
      · exact stepA_no_delete _ _ _ _ _ ha
      · have := stepB_delete_candidate _ _ _ _ _ hb
        rw [hnone n] at this
        cases this
    · rcases stepC_actions cfg (snaps n) _ with hc | hc <;> rw [hc] at hcm <;> simp at hcm
  · intro hd hhang hz
    have hB : ∀ (n : ℕ) (s : WatchdogState),
        (stepB cfg (envs n) (snaps n) s).1.disk_full_counter = s.disk_full_counter + 1 := by
      intro n s
      by_cases h2 : cfg.MAX_DISK_FULL_COUNT ≤ s.disk_full_counter + 1 <;>
        simp [stepB, hd n, hnone n, h2, ge_iff_le]
    have hC : ∀ (n : ℕ) (s : WatchdogState),
        (stepC cfg (snaps n) s).1.disk_full_counter = s.disk_full_counter := by
      intro n s
      simp [stepC, hhang n, show ¬(cfg.MAX_ZERO_COUNT ≤ 0) from by omega, ge_iff_le]
    intro n
    induction n with
    | zero => rfl
    | succ m ih =>
      show (step cfg (envs m) (snaps m) (runState cfg snaps envs m)).1.disk_full_counter = m + 1
      have hA := (stepA_effect cfg (envs m) (snaps m) (runState cfg snaps envs m)).2.2.2.1
      show (stepC cfg (snaps m) _).1.disk_full_counter = m + 1
      rw [hC m _, hB m _, hA, ih]

theorem spec_C6_witness :
    Action.DeleteJob completedJob ∉
      cycleActions defaultConfig (fun _ => idleLowDiskSnap) (fun _ => failEnv) 1 ∧
    (runState defaultConfig (fun _ => idleLowDiskSnap) (fun _ => failEnv)
        4).disk_full_counter = 4 := by
  have h := spec_C6_no_candidate_unbounded defaultConfig (fun _ => idleLowDiskSnap)
    (fun _ => failEnv)
    (fun _ => show ∀ j ∈ idleLowDiskSnap.queue_items, eligibleJob j = false by decide)
  exact ⟨h.1 1 completedJob,
    h.2 (fun _ => by norm_num [idleLowDiskSnap, defaultConfig])
      (fun _ => show ¬(idleLowDiskSnap.overall_status = "Downloading" ∧
        idleLowDiskSnap.speed = 0 ∧
        idleLowDiskSnap.is_post_processing_active = false) by decide)
      (by decide) 4⟩


lemma parse_ten_gb : parse_sab_size_string "10.0 GB" = 10 := by
  have hs : sizeSplit "10.0 GB".data = (SizeUnit.gb, ['1', '0', '.', '0']) := by decide
  have hp : pyFloatParse ['1', '0', '.', '0'] =
      some ⟨false, ['1', '0'], ['0'], false, []⟩ := by decide
  have d1 : digitsVal ['1', '0'] = 10 := by decide
  have d2 : digitsVal ['0'] = 0 := by decide
  have d3 : digitsVal ([] : List Char) = 0 := by decide
  simp [parse_sab_size_string, parseSizeChars, hs, pyFloatChars, hp, repValue, d1, d2, d3]

lemma effectiveSize_downloadingJob : effectiveSize downloadingJob = 10 := by
  simp [effectiveSize, downloadingJob, parse_ten_gb]

lemma selectCandidate_pressure_queue :
    selectCandidate [downloadingJob, queuedJob] = (some downloadingJob, 10) := by
  have hd : eligibleJob downloadingJob = true := by decide
  have hq : eligibleJob queuedJob = true := by decide
  simp [selectCandidate, selGo, hd, hq, effectiveSize_downloadingJob,
    effectiveSize_queuedJob, show (0 : ℚ) < 10 from by norm_num,
    show ¬((10 : ℚ) < 3) from by norm_num]

lemma pressureTrace_one :
    runState defaultConfig (fun _ => diskPressureSnap) (fun _ => failEnv) 1 =
      ⟨0, 0, 0, 1, 0⟩ := by
  show (step defaultConfig failEnv diskPressureSnap initState).1 = _
  simp [step, stepA, stepB, stepC, diskPressureSnap, initState, defaultConfig, ge_iff_le,
    show (2 : ℚ) < 5 from by norm_num, show ¬((100 : ℚ) = 0) from by norm_num]

/-- C3: the deletion candidate is the first job of maximal effective size
(`sizeleft` for a downloading job, total size otherwise) among jobs that
are not completed, failed or post-processing; whenever one exists on a
threshold cycle a `DeleteJob` for it is emitted, and the emitted actions do
not depend on `sizeCheckBufferGB` at all; in the spec scenario (2 GB free,
a downloading job with 10 GB left and a queued 3 GB job) the downloading
job is deleted. -/
theorem spec_C3_deletion_candidate (cfg : Config) (env : Env) (snap : Snapshot)
    (s : WatchdogState) (j : RawJob) (m b : ℚ) :
    (selectCandidate snap.queue_items = (some j, m) →
      eligibleJob j = true ∧ effectiveSize j = m ∧ j ∈ snap.queue_items ∧
      (∀ j2 ∈ snap.queue_items, eligibleJob j2 = true → effectiveSize j2 ≤ m) ∧
      ∃ pre post, snap.queue_items = pre ++ j :: post ∧
        ∀ j2 ∈ pre, eligibleJob j2 = true → effectiveSize j2 < m) ∧
    (snap.disk_space_free_gb < cfg.DISK_FREE_THRESHOLD_GB →
      cfg.MAX_DISK_FULL_COUNT ≤ s.disk_full_counter + 1 →
      (selectCandidate snap.queue_items).1 = some j →
      Action.DeleteJob j ∈ (stepB cfg env snap s).2) ∧
    step { cfg with SIZE_CHECK_BUFFER_GB := b } env snap s = step cfg env snap s ∧
    selectCandidate [downloadingJob, queuedJob] = (some downloadingJob, 10) ∧
    cycleActions defaultConfig (fun _ => diskPressureSnap) (fun _ => failEnv) 1 =
      [Action.DeleteJob downloadingJob] := by
  refine ⟨?_, ?_, ?_, selectCandidate_pressure_queue, ?_⟩
  · intro hsel
    obtain ⟨h1, h2, _, h4, h5, h6⟩ := selectCandidate_some hsel
    exact ⟨h1, h2, h4, h5, h6⟩
  · intro h1 h2 hsel
    by_cases h3 : env.deleteOk = true <;>
    by_cases h4 : env.refetch.disk_space_free_gb < cfg.DISK_FREE_THRESHOLD_GB <;>
    by_cases h5 : cfg.RESTART_ON_DISK_FULL_FAIL_COUNT ≤ s.disk_full_restart_counter + 1 <;>
    simp [stepB, h1, h2, h3, h4, h5, hsel, ge_iff_le]
  · simp only [step, stepA, stepB, stepC, ite_self]
  · unfold cycleActions
    rw [pressureTrace_one]
    have hsel : (selectCandidate [downloadingJob, queuedJob]).1 = some downloadingJob := by
      rw [selectCandidate_pressure_queue]
    simp [step, stepA, stepB, stepC, diskPressureSnap, failEnv, errorSnapshot, defaultConfig,
      ge_iff_le, hsel, show (2 : ℚ) < 5 from by norm_num,
      show ¬((100 : ℚ) = 0) from by norm_num]

theorem spec_C3_witness :
    Action.DeleteJob downloadingJob ∈
      (stepB defaultConfig failEnv diskPressureSnap ⟨0, 0, 0, 1, 0⟩).2 ∧
    effectiveSize downloadingJob = 10 := by
  have h := spec_C3_deletion_candidate defaultConfig failEnv diskPressureSnap
    ⟨0, 0, 0, 1, 0⟩ downloadingJob 10 7
  have hsel : (selectCandidate diskPressureSnap.queue_items).1 = some downloadingJob := by
    show (selectCandidate [downloadingJob, queuedJob]).1 = some downloadingJob
    rw [h.2.2.2.1]
  refine ⟨h.2.1 (by norm_num [diskPressureSnap, defaultConfig]) (by decide) hsel, ?_⟩
  have hfull : selectCandidate diskPressureSnap.queue_items = (some downloadingJob, 10) :=
    h.2.2.2.1
  exact (h.1 hfull).2.1


lemma c1Trace_two :
    runState defaultConfig c1Snaps (fun _ => c1Env) 2 = ⟨2, 0, 0, 1, 0⟩ := by
  decide

lemma c1Trace_three :
    runState defaultConfig c1Snaps (fun _ => c1Env) 3 = ⟨1, 0, 0, 0, 0⟩ := by
  show (step defaultConfig c1Env (c1Snaps 2) (runState defaultConfig c1Snaps (fun _ => c1Env) 2)).1 = _
  rw [c1Trace_two, show c1Snaps 2 = c1SnapB from rfl]
  have hsel : (selectCandidate [queuedJob]).1 = some queuedJob := by
    simp [selectCandidate, selGo, show eligibleJob queuedJob = true from by decide,
      effectiveSize_queuedJob, show (0 : ℚ) < 3 from by norm_num]
  simp [step, stepA, stepB, stepC, c1SnapB, c1Env, initState, defaultConfig, ge_iff_le,
    hsel, show (1 : ℚ) < 5 from by norm_num]

/-- C1 counterexample: under the default configuration, a cycle whose
disk-full escalation restarts the container zeroes the hang counter
mid-cycle, after which the hang block increments it to 1; the cycle starts
with `hangCounter = 2` and ends with `hangCounter = 1`, which is neither
the start value plus one nor zero. -/
theorem spec_C1_counterexample :
    (runState defaultConfig c1Snaps (fun _ => c1Env) 2).zero_speed_hang_counter = 2 ∧
    (runState defaultConfig c1Snaps (fun _ => c1Env) 3).zero_speed_hang_counter = 1 ∧
    ¬((runState defaultConfig c1Snaps (fun _ => c1Env) 3).zero_speed_hang_counter =
        (runState defaultConfig c1Snaps (fun _ => c1Env) 2).zero_speed_hang_counter + 1 ∨
      (runState defaultConfig c1Snaps (fun _ => c1Env) 3).zero_speed_hang_counter = 0) := by
  rw [c1Trace_two, c1Trace_three]
  refine ⟨rfl, rfl, ?_⟩
  decide

/-- C1 (amended): per cycle, `pausedCounter`, `postProcessingCounter` and
`diskFullCounter` end at their start value plus one or at zero;
`hangCounter` ends at its start value plus one, at zero, or at one (the
latter when a disk-full escalation restart zeroes it mid-cycle and the hang
condition then increments it); `diskFullRestartCounter` ends at its start
value plus one, at zero, or unchanged (on low-disk cycles that do not reach
a deletion resolution).  All counters are naturals, so they are always
non-negative and never increase by more than one per cycle. -/
theorem spec_C1_counter_transitions (cfg : Config) (env : Env) (snap : Snapshot)
    (s : WatchdogState) :
    ((step cfg env snap s).1.sabnzbd_paused_counter = s.sabnzbd_paused_counter + 1 ∨
      (step cfg env snap s).1.sabnzbd_paused_counter = 0) ∧
    ((step cfg env snap s).1.post_processing_active_counter =
        s.post_processing_active_counter + 1 ∨
      (step cfg env snap s).1.post_processing_active_counter = 0) ∧
    ((step cfg env snap s).1.disk_full_counter = s.disk_full_counter + 1 ∨
      (step cfg env snap s).1.disk_full_counter = 0) ∧
    ((step cfg env snap s).1.zero_speed_hang_counter = s.zero_speed_hang_counter + 1 ∨
      (step cfg env snap s).1.zero_speed_hang_counter = 0 ∨
      (step cfg env snap s).1.zero_speed_hang_counter = 1) ∧
    ((step cfg env snap s).1.disk_full_restart_counter = s.disk_full_restart_counter + 1 ∨
      (step cfg env snap s).1.disk_full_restart_counter = 0 ∨
      (step cfg env snap s).1.disk_full_restart_counter = s.disk_full_restart_counter) := by
  have hstep : (step cfg env snap s).1 =
      (stepC cfg snap (stepB cfg env snap (stepA cfg env snap s).1).1).1 := rfl
  obtain ⟨a1, a2, a3, a4, a5⟩ := stepA_effect cfg env snap s
  obtain ⟨b1, b2, b3, b4, b5⟩ := stepB_effect cfg env snap (stepA cfg env snap s).1
  obtain ⟨c1, c2, c3, c4, c5⟩ :=
    stepC_effect cfg snap (stepB cfg env snap (stepA cfg env snap s).1).1
  rw [hstep]
  refine ⟨?_, ?_, ?_, ?_, ?_⟩
  · rcases a2 with a2 | a2 <;> rcases b2 with b2 | b2 <;> rcases c2 with c2 | c2 <;> omega
  · rcases a3 with a3 | a3 <;> rcases b3 with b3 | b3 <;> rcases c3 with c3 | c3 <;> omega
  · rcases b4 with b4 | b4 <;> rcases c4 with c4 | c4 <;> omega
  · rcases b1 with b1 | b1 <;> rcases c1 with c1 | c1 <;> omega
  · rcases b5 with b5 | b5 | b5 <;> rcases c5 with c5 | c5 <;> omega


/-! ## Support lemmas for the size-parser contract -/

lemma numeric_char_props {c : Char}
    (h : (c.isDigit || c == '.' || c == '+' || c == '-' || c == 'e' || c == 'E') = true) :
    isSpaceChar c = false ∧ c ≠ ' ' ∧ c ≠ 'B' := by
  have hcases : c.isDigit = true ∨ c = '.' ∨ c = '+' ∨ c = '-' ∨ c = 'e' ∨ c = 'E' := by
    simpa [Bool.or_eq_true, beq_iff_eq, or_assoc] using h
  rcases hcases with hd | rfl | rfl | rfl | rfl | rfl
  · refine ⟨?_, ?_, ?_⟩
    · cases hsp : isSpaceChar c
      · rfl
      · exfalso
        have hmem : c = ' ' ∨ c = '\t' ∨ c = '\n' ∨ c = '\r' ∨
            c = Char.ofNat 11 ∨ c = Char.ofNat 12 := by
          simpa [isSpaceChar, Bool.or_eq_true, beq_iff_eq, or_assoc] using hsp
        rcases hmem with rfl | rfl | rfl | rfl | rfl | rfl <;> exact absurd hd (by decide)
    · rintro rfl; exact absurd hd (by decide)
    · rintro rfl; exact absurd hd (by decide)
  · exact ⟨by decide, by decide, by decide⟩
  · exact ⟨by decide, by decide, by decide⟩
  · exact ⟨by decide, by decide, by decide⟩
  · exact ⟨by decide, by decide, by decide⟩
  · exact ⟨by decide, by decide, by decide⟩

lemma numeric_no_space {l : List Char} (h : numericChars l = true) : ' ' ∉ l := by
  intro hmem
  have := numeric_char_props ((List.all_eq_true.mp h) _ hmem)
  exact this.2.1 rfl

lemma numeric_no_b {l : List Char} (h : numericChars l = true) : 'B' ∉ l := by
  intro hmem
  have := numeric_char_props ((List.all_eq_true.mp h) _ hmem)
  exact this.2.2 rfl

lemma numeric_not_space {l : List Char} (h : numericChars l = true) :
    ∀ c ∈ l, isSpaceChar c = false := by
  intro c hc
  exact (numeric_char_props ((List.all_eq_true.mp h) c hc)).1

lemma stripChars_eq_self {l : List Char} (h : ∀ c ∈ l, isSpaceChar c = false) :
    stripChars l = l := by
  have h1 : l.dropWhile isSpaceChar = l := by
    cases l with
    | nil => rfl
    | cons c t => simp [List.dropWhile_cons, h c (List.mem_cons_self _ _)]
  have h2 : l.reverse.dropWhile isSpaceChar = l.reverse := by
    cases hr : l.reverse with
    | nil => rfl
    | cons c t =>
      have hc : c ∈ l := by
        rw [← List.mem_reverse, hr]
        exact List.mem_cons_self _ _
      simp [List.dropWhile_cons, h c hc]
  simp [stripChars, h1, h2]

lemma stripChars_append_suffix (x : Char) {l : List Char} (hne : l ≠ [])
    (h : ∀ c ∈ l, isSpaceChar c = false) :
    stripChars (l ++ [' ', x, 'B']) = l ++ [' ', x, 'B'] := by
  obtain ⟨c, t, rfl⟩ := List.exists_cons_of_ne_nil hne
  have hc : isSpaceChar c = false := h c (List.mem_cons_self _ _)
  have h1 : ((c :: t) ++ [' ', x, 'B']).dropWhile isSpaceChar =
      (c :: t) ++ [' ', x, 'B'] := by
    simp [List.dropWhile_cons, hc]
  have h2 : ((c :: t) ++ [' ', x, 'B']).reverse.dropWhile isSpaceChar =
      ((c :: t) ++ [' ', x, 'B']).reverse := by
    rw [List.reverse_append]
    have hrev : ([' ', x, 'B'] : List Char).reverse = ['B', x, ' '] := rfl
    rw [hrev]
    show List.dropWhile isSpaceChar ('B' :: (x :: ' ' :: (c :: t).reverse)) = _
    rw [List.dropWhile_cons]
    rw [if_neg (by decide)]
    rfl
  unfold stripChars
  rw [h1, h2, List.reverse_reverse]

lemma listReplaceAux_nil (pat rep : List Char) (f : ℕ) :
    listReplaceAux pat rep f [] = [] := by
  cases f <;> rfl

lemma listReplaceAux_append (p : Char) (pt : List Char) :
    ∀ (l : List Char) (f : ℕ), (l ++ p :: pt).length ≤ f → p ∉ l →
    listReplaceAux (p :: pt) [] f (l ++ p :: pt) = l := by
  intro l
  induction l with
  | nil =>
    intro f hf hp
    cases f with
    | zero => simp at hf
    | succ f =>
      show listReplaceAux (p :: pt) [] (f + 1) ([] ++ p :: pt) = []
      simp only [List.nil_append]
      rw [listReplaceAux]
      rw [if_pos ⟨List.cons_ne_nil p pt, List.isPrefixOf_iff_prefix.mpr List.prefix_rfl⟩]
      rw [List.drop_length]
      rw [listReplaceAux_nil]
      rfl
  | cons c t ih =>
    intro f hf hp
    cases f with
    | zero => simp at hf
    | succ f =>
      have hpc : ¬(p = c) := fun hh => hp (hh ▸ List.mem_cons_self c t)
      show listReplaceAux (p :: pt) [] (f + 1) (c :: (t ++ p :: pt)) = c :: t
      rw [listReplaceAux]
      rw [if_neg (by simp [List.isPrefixOf, beq_eq_false_iff_ne, hpc])]
      congr 1
      refine ih f ?_ (fun hh => hp (List.mem_cons_of_mem _ hh))
      simp only [List.length_append, List.length_cons] at hf ⊢
      omega

lemma listReplace_append (p : Char) (pt l : List Char) (hp : p ∉ l) :
    listReplace (p :: pt) [] (l ++ p :: pt) = l :=
  listReplaceAux_append p pt l (l ++ p :: pt).length le_rfl hp

lemma isSuffixOf_append_self (pat l : List Char) : pat.isSuffixOf (l ++ pat) = true := by
  simp [List.isSuffixOf_iff_suffix, List.suffix_append]

lemma isSuffixOf_three_mismatch (a b : Char) (hab : a ≠ b) (l : List Char) :
    ([' ', a, 'B'] : List Char).isSuffixOf (l ++ [' ', b, 'B']) = false := by
  simp only [List.isSuffixOf, List.reverse_append]
  simp [List.isPrefixOf, beq_eq_false_iff_ne, hab]

lemma isSuffixOf_false_of_not_mem (x : Char) {l : List Char} (hB : 'B' ∉ l) :
    ([' ', x, 'B'] : List Char).isSuffixOf l = false := by
  cases h : ([' ', x, 'B'] : List Char).isSuffixOf l
  · rfl
  · exfalso
    have hsuf : ([' ', x, 'B'] : List Char) <:+ l := List.isSuffixOf_iff_suffix.mp h
    obtain ⟨t, ht⟩ := hsuf
    apply hB
    rw [← ht]
    exact List.mem_append_right t (by simp)


lemma sizeSplit_append_gb {l : List Char} (hnum : numericChars l = true) (hne : l ≠ []) :
    sizeSplit (l ++ gbSuffix) = (SizeUnit.gb, l) := by
  have hstrip : stripChars (l ++ gbSuffix) = l ++ gbSuffix :=
    stripChars_append_suffix 'G' hne (numeric_not_space hnum)
  have hsuf : gbSuffix.isSuffixOf (l ++ gbSuffix) = true := isSuffixOf_append_self _ _
  have hrep : listReplace gbSuffix [] (l ++ gbSuffix) = l :=
    listReplace_append ' ' ['G', 'B'] l (numeric_no_space hnum)
  simp [sizeSplit, hstrip, hsuf, hrep]

lemma sizeSplit_append_mb {l : List Char} (hnum : numericChars l = true) (hne : l ≠ []) :
    sizeSplit (l ++ mbSuffix) = (SizeUnit.mb, l) := by
  have hstrip : stripChars (l ++ mbSuffix) = l ++ mbSuffix :=
    stripChars_append_suffix 'M' hne (numeric_not_space hnum)
  have hgb : gbSuffix.isSuffixOf (l ++ mbSuffix) = false :=
    isSuffixOf_three_mismatch 'G' 'M' (by decide) l
  have hsuf : mbSuffix.isSuffixOf (l ++ mbSuffix) = true := isSuffixOf_append_self _ _
  have hrep : listReplace mbSuffix [] (l ++ mbSuffix) = l :=
    listReplace_append ' ' ['M', 'B'] l (numeric_no_space hnum)
  simp [sizeSplit, hstrip, hgb, hsuf, hrep]

lemma sizeSplit_append_kb {l : List Char} (hnum : numericChars l = true) (hne : l ≠ []) :
    sizeSplit (l ++ kbSuffix) = (SizeUnit.kb, l) := by
  have hstrip : stripChars (l ++ kbSuffix) = l ++ kbSuffix :=
    stripChars_append_suffix 'K' hne (numeric_not_space hnum)
  have hgb : gbSuffix.isSuffixOf (l ++ kbSuffix) = false :=
    isSuffixOf_three_mismatch 'G' 'K' (by decide) l
  have hmb : mbSuffix.isSuffixOf (l ++ kbSuffix) = false :=
    isSuffixOf_three_mismatch 'M' 'K' (by decide) l
  have hsuf : kbSuffix.isSuffixOf (l ++ kbSuffix) = true := isSuffixOf_append_self _ _
  have hrep : listReplace kbSuffix [] (l ++ kbSuffix) = l :=
    listReplace_append ' ' ['K', 'B'] l (numeric_no_space hnum)
  simp [sizeSplit, hstrip, hgb, hmb, hsuf, hrep]

lemma sizeSplit_bare {l : List Char} (hnum : numericChars l = true) :
    sizeSplit l = (SizeUnit.bare, l) := by
  have hstrip : stripChars l = l := stripChars_eq_self (numeric_not_space hnum)
  have h1 : gbSuffix.isSuffixOf l = false := isSuffixOf_false_of_not_mem 'G' (numeric_no_b hnum)
  have h2 : mbSuffix.isSuffixOf l = false := isSuffixOf_false_of_not_mem 'M' (numeric_no_b hnum)
  have h3 : kbSuffix.isSuffixOf l = false := isSuffixOf_false_of_not_mem 'K' (numeric_no_b hnum)
  simp [sizeSplit, hstrip, h1, h2, h3]

/-- C8: for a well-formed magnitude, a `" GB"` suffix leaves the value
unchanged, `" MB"` divides by 1024, `" KB"` by 1024·1024, no suffix is
taken as GB; whenever the magnitude of the selected branch fails to parse,
the result is `0.0` (and the function is total, so no exception escapes);
and `"12.50 GB" ↦ 12.50`, `"512 MB" ↦ 0.5`, `"garbage" ↦ 0.0`. -/
theorem spec_C8_size_parsing :
    (∀ (l : List Char) (q : ℚ), numericChars l = true → pyFloatChars l = some q →
      parseSizeChars (l ++ gbSuffix) = q) ∧
    (∀ (l : List Char) (q : ℚ), numericChars l = true → pyFloatChars l = some q →
      parseSizeChars (l ++ mbSuffix) = q / 1024) ∧
    (∀ (l : List Char) (q : ℚ), numericChars l = true → pyFloatChars l = some q →
      parseSizeChars (l ++ kbSuffix) = q / (1024 * 1024)) ∧
    (∀ (l : List Char) (q : ℚ), numericChars l = true → pyFloatChars l = some q →
      parseSizeChars l = q) ∧
    (∀ l : List Char, pyFloatChars (sizeSplit l).2 = none → parseSizeChars l = 0) ∧
    parse_sab_size_string "12.50 GB" = 25 / 2 ∧
    parse_sab_size_string "512 MB" = 1 / 2 ∧
    parse_sab_size_string "garbage" = 0 := by
  have hnil : ∀ (q : ℚ), pyFloatChars [] = some q → False := by
    intro q hq
    exact Option.noConfusion hq
  refine ⟨?_, ?_, ?_, ?_, ?_, ?_, ?_, ?_⟩
  · intro l q hnum hq
    have hne : l ≠ [] := by rintro rfl; exact hnil q hq
    simp [parseSizeChars, sizeSplit_append_gb hnum hne, hq]
  · intro l q hnum hq
    have hne : l ≠ [] := by rintro rfl; exact hnil q hq
    simp [parseSizeChars, sizeSplit_append_mb hnum hne, hq]
  · intro l q hnum hq
    have hne : l ≠ [] := by rintro rfl; exact hnil q hq
    simp [parseSizeChars, sizeSplit_append_kb hnum hne, hq]
  · intro l q hnum hq
    simp [parseSizeChars, sizeSplit_bare hnum, hq]
  · intro l h
    rcases hsz : sizeSplit l with ⟨u, rest⟩
    rw [hsz] at h
    simp only at h
    cases u <;> simp [parseSizeChars, hsz, h]
  · have hs : sizeSplit "12.50 GB".data = (SizeUnit.gb, ['1', '2', '.', '5', '0']) := by decide
    have hp : pyFloatParse ['1', '2', '.', '5', '0'] =
        some ⟨false, ['1', '2'], ['5', '0'], false, []⟩ := by decide
    have d1 : digitsVal ['1', '2'] = 12 := by decide
    have d2 : digitsVal ['5', '0'] = 50 := by decide
    have d3 : digitsVal ([] : List Char) = 0 := by decide
    simp [parse_sab_size_string, parseSizeChars, hs, pyFloatChars, hp, repValue, d1, d2, d3]
    norm_num
  · have hs : sizeSplit "512 MB".data = (SizeUnit.mb, ['5', '1', '2']) := by decide
    have hp : pyFloatParse ['5', '1', '2'] =
        some ⟨false, ['5', '1', '2'], [], false, []⟩ := by decide
    have d1 : digitsVal ['5', '1', '2'] = 512 := by decide
    have d3 : digitsVal ([] : List Char) = 0 := by decide
    simp [parse_sab_size_string, parseSizeChars, hs, pyFloatChars, hp, repValue, d1, d3]
    norm_num
  · have hs : sizeSplit "garbage".data = (SizeUnit.bare, "garbage".data) := by decide
    have hp : pyFloatParse "garbage".data = none := by decide
    simp [parse_sab_size_string, parseSizeChars, hs, pyFloatChars, hp]

theorem spec_C8_witness :
    parseSizeChars (['4', '2'] ++ gbSuffix) = 42 ∧
    parseSizeChars (['4', '2'] ++ mbSuffix) = 42 / 1024 ∧
    parse_sab_size_string "garbage" = 0 := by
  have h := spec_C8_size_parsing
  have hv : pyFloatChars ['4', '2'] = some 42 := by
    have hp : pyFloatParse ['4', '2'] = some ⟨false, ['4', '2'], [], false, []⟩ := by decide
    have d1 : digitsVal ['4', '2'] = 42 := by decide
    have d3 : digitsVal ([] : List Char) = 0 := by decide
    simp [pyFloatChars, hp, repValue, d1, d3]
  exact ⟨h.1 ['4', '2'] 42 (by decide) hv, h.2.1 ['4', '2'] 42 (by decide) hv,
    h.2.2.2.2.2.2.2⟩

end SabWatchdog
